import Mathlib

/-!
Verification development for the `bench/run_tokenize_bench.py` load-generation
harness.  The Python source is shallowly embedded: JSON values become an
inductive type, the HTTP session becomes a function from request bodies to
replies, wall-clock readings become rational numbers supplied as a tick trace,
and each loop iteration of `run_bench` becomes a pure step function on an
explicit `LoopState`.
-/

/-- JSON-like values, as Python builds them with dict/list/str/int/bool
literals.  `int` carries a mathematical integer; Python `bool` is kept
separate but note `isinstance(b, int)` holds for Python bools. -/
inductive JVal where
  | null
  | bool (b : Bool)
  | int (i : Int)
  | str (s : String)
  | arr (xs : List JVal)
  | obj (fields : List (String × JVal))

/-- Outcome of one HTTP exchange as the Python `requests` layer presents it:
either a response with a status code, raw text and (when the body parses)
a JSON document, or a raised exception described by its repr text. -/
inductive HttpReply where
  | resp (status : Nat) (text : String) (json : Option JVal)
  | exc (e : String)

/-- The body recorded in the success dict of `submit_job`: the parsed JSON
when `r.json()` succeeds, else `r.text[:500]`. -/
inductive SubmitBody where
  | json (j : JVal)
  | text (t : String)

/-- The dict `submit_job` returns on success:
`{"ok": True, "status": r.status_code, "resp"/"resp_text": ...}`. -/
structure SubmitOk where
  status : Nat
  body : SubmitBody

/-- The `last_err` dict built inside `submit_job` for a failed shape:
either a non-2xx response (`status`, `r.text[:1000]`, payload) or a raised
exception (`repr(e)`, payload). -/
inductive SubmitErr where
  | httpErr (status : Nat) (resp_text : String) (payload : JVal)
  | excErr (exc : String) (payload : JVal)

/-- Python string slicing `s[:n]`: the first `n` characters. -/
def str_take (s : String) (n : Nat) : String := String.mk (s.data.take n)

/-- Payload shape A from `submit_job`: a dict with the keys op and input. -/
def shape_a (op text : String) : JVal :=
  JVal.obj [("op", JVal.str op), ("input", JVal.obj [("text", JVal.str text)])]

/-- Payload shape B from `submit_job`: shape A nested under the key task. -/
def shape_b (op text : String) : JVal :=
  JVal.obj [("task", shape_a op text)]

/-- The `payloads` list of `submit_job`, tried in order. -/
def payload_shapes (op text : String) : List JVal := [shape_a op text, shape_b op text]

/-- Modelled from the spec (section 6, not implemented by the source):
the single authoritative request-body shape, a dict with the keys op and
payload, the payload being a dict with the key text. -/
def spec_shape (op text : String) : JVal :=
  JVal.obj [("op", JVal.str op), ("payload", JVal.obj [("text", JVal.str text)])]

/-- The for-loop of `submit_job`: try each payload shape in order against the
server, returning on the first 2xx status; remember the last failure.
Result: the list of bodies actually POSTed, in order, and either the success
dict or the raised `RuntimeError` carrying `last_err`. -/
def try_shapes (server : JVal → HttpReply) :
    List JVal → Option SubmitErr → List JVal × Except (Option SubmitErr) SubmitOk
  | [], last_err => ([], Except.error last_err)
  | p :: rest, _ =>
    match server p with
    | HttpReply.resp st text js =>
      if 200 ≤ st ∧ st < 300 then
        ([p], Except.ok { status := st,
                          body := match js with
                                  | some j => SubmitBody.json j
                                  | none => SubmitBody.text (str_take text 500) })
      else
        let r := try_shapes server rest (some (SubmitErr.httpErr st (str_take text 1000) p))
        (p :: r.1, r.2)
    | HttpReply.exc e =>
      let r := try_shapes server rest (some (SubmitErr.excErr e p))
      (p :: r.1, r.2)

/-- `submit_job(session, base, op, text)`: POST the two candidate shapes to
`/api/job` until one gets a 2xx; if both fail, raise.  The `server` function
stands for the remote endpoint's reply to a given request body. -/
def submit_job (server : JVal → HttpReply) (op text : String) :
    List JVal × Except (Option SubmitErr) SubmitOk :=
  try_shapes server (payload_shapes op text) none

/-- Whether an `Except` models a raised exception. -/
def isRaise {ε α : Type} : Except ε α → Bool
  | Except.error _ => true
  | Except.ok _ => false

/-- Whether a reply's status code is in [200, 300); exceptions are not. -/
def status2xx : HttpReply → Bool
  | HttpReply.resp st _ _ => decide (200 ≤ st ∧ st < 300)
  | HttpReply.exc _ => false

/-- The `RunConfig` dataclass. -/
structure RunConfig where
  controller_url : String
  duration_s : Int
  mode : String
  rate_tps : Option Int
  max_inflight : Int
  sample_interval_s : ℚ
  op : String
  payload_bytes : Nat
  seed : Int

/-- Line 172 of the source: `1.0 / cfg.rate_tps if (cfg.mode == "fixed-rate"
and cfg.rate_tps and cfg.rate_tps > 0) else 0.0`.  Python truthiness of the
optional rate: `None` and `0` are falsy. -/
def interval_of (cfg : RunConfig) : ℚ :=
  match cfg.rate_tps with
  | some r => if cfg.mode = "fixed-rate" ∧ r ≠ 0 ∧ 0 < r then 1 / (r : ℚ) else 0
  | none => 0

/-- Python `isinstance(v, int)` plus the extracted value; Python bools are
ints (`True == 1`, `False == 0`). -/
def py_int : JVal → Option Int
  | JVal.int i => some i
  | JVal.bool b => some (if b then 1 else 0)
  | _ => none

/-- The recognized completion-counter keys, in the order the source tries
them. -/
def completed_keys : List String :=
  ["completed_total", "tasks_completed", "ctrl_tasks_completed"]

/-- The key-discovery loop: first key present in the dict with an
integer value. -/
def first_int (fields : List (String × JVal)) : List String → Option Int
  | [] => none
  | k :: ks =>
    match (fields.lookup k).bind py_int with
    | some c => some c
    | none => first_int fields ks

/-- Lines 187–191: discover `completed_total` in a stats snapshot. -/
def extract_completed : JVal → Option Int
  | JVal.obj fields => first_int fields completed_keys
  | _ => none

/-- The mutable loop variables of `run_bench`. -/
structure LoopState where
  submitted : Nat
  submit_fail : Nat
  last_completed_total : Option Int
  baseline_completed_total : Option Int
  next_sample : ℚ
  next_tick : ℚ

/-- One control-loop iteration's environment: the clock reading `now`, the
reply of `GET /stats` (were it polled this tick), the job endpoint's
behavior, and the random payload text generated this tick. -/
structure TickIn where
  now : ℚ
  stats : Except String JVal
  server : JVal → HttpReply
  text : String

/-- Observable effects of the run, in program order: directory creation,
artifact writes, log-line appends, and `time.sleep` calls. -/
inductive Ev where
  | mkdir_runs
  | mkdir_out
  | write_config
  | healthz_line (status : Nat) (text : String)
  | healthz_error_line (error : String)
  | write_agents_start (doc : JVal)
  | stats_line (t : ℚ) (st : JVal)
  | stats_error_line (t : ℚ) (error : String)
  | submit_ok_line (t : ℚ) (n : Nat)
  | submit_fail_line (t : ℚ) (n : Nat) (fails : Nat)
  | flood_ok_line (t : ℚ) (n : Nat) (inflight : Option Int) (resp_hint : Nat)
  | sleep (secs : ℚ)
  | final_stats_line (st : JVal)
  | final_stats_error_line (error : String)
  | write_agents_end (doc : JVal)
  | write_summary (submitted : Nat) (submit_fail : Nat)

/-- Lines 180–201: if the sample is due, poll `/stats`, append a snapshot or
error line, and update the completion-counter baseline and latest value. -/
def sample_update (sample_interval : ℚ) (s : LoopState) (tk : TickIn) :
    LoopState × List Ev :=
  if s.next_sample ≤ tk.now then
    match tk.stats with
    | Except.ok st =>
      let s1 := match extract_completed st with
        | some c =>
          { s with baseline_completed_total := some (s.baseline_completed_total.getD c),
                   last_completed_total := some c }
        | none => s
      ({ s1 with next_sample := s1.next_sample + sample_interval }, [Ev.stats_line tk.now st])
    | Except.error e =>
      ({ s with next_sample := s.next_sample + sample_interval }, [Ev.stats_error_line tk.now e])
  else (s, [])

/-- Lines 204–219, the fixed-rate branch: if the tick is due, submit one job
(catching a raise as a `submit_fail`), advance `next_tick` by the interval,
and jump `next_tick` forward to `now` when more than 2 seconds behind. -/
def fixed_rate_submit (cfg : RunConfig) (interval : ℚ) (s : LoopState) (tk : TickIn) :
    LoopState × List Ev :=
  if s.next_tick ≤ tk.now then
    let sr : LoopState × List Ev :=
      match (submit_job tk.server cfg.op tk.text).2 with
      | Except.ok _ =>
        ({ s with submitted := s.submitted + 1 }, [Ev.submit_ok_line tk.now (s.submitted + 1)])
      | Except.error _ =>
        ({ s with submit_fail := s.submit_fail + 1 },
         [Ev.submit_fail_line tk.now s.submitted (s.submit_fail + 1)])
    let nt := sr.1.next_tick + interval
    let nt := if nt < tk.now - 2 then tk.now else nt
    ({ sr.1 with next_tick := nt }, sr.2)
  else (s, [])

/-- Line 225: `inflight = submitted - (last_completed_total -
baseline_completed_total)` when both counters have been observed. -/
def inflight_of (s : LoopState) : Option Int :=
  match s.baseline_completed_total, s.last_completed_total with
  | some b, some l => some ((s.submitted : Int) - (l - b))
  | _, _ => none

/-- Lines 221–241, the flood branch: submit when the inflight estimate is
unknown or below `max_inflight` (sleeping 0.05 s after a failed submission),
else sleep the 0.002 s backpressure pause.  Successes are logged only every
1000th. -/
def flood_submit (cfg : RunConfig) (s : LoopState) (tk : TickIn) :
    LoopState × List Ev :=
  let inflight := inflight_of s
  let below : Bool :=
    match inflight with
    | none => true
    | some i => decide (i < cfg.max_inflight)
  if below then
    match (submit_job tk.server cfg.op tk.text).2 with
    | Except.ok r =>
      let n := s.submitted + 1
      ({ s with submitted := n },
       if n % 1000 = 0 then [Ev.flood_ok_line tk.now n inflight r.status] else [])
    | Except.error _ =>
      ({ s with submit_fail := s.submit_fail + 1 },
       [Ev.submit_fail_line tk.now s.submitted (s.submit_fail + 1), Ev.sleep (1/20)])
  else
    (s, [Ev.sleep (1/500)])

/-- One full loop-body iteration in fixed-rate mode: sampling, then the
rate-scheduler branch. -/
def fixed_step (cfg : RunConfig) (interval : ℚ) (s : LoopState) (tk : TickIn) :
    LoopState × List Ev :=
  let r1 := sample_update cfg.sample_interval_s s tk
  let r2 := fixed_rate_submit cfg interval r1.1 tk
  (r2.1, r1.2 ++ r2.2)

/-- One full loop-body iteration in flood mode: sampling, then the
backpressure-governor branch. -/
def flood_step (cfg : RunConfig) (s : LoopState) (tk : TickIn) :
    LoopState × List Ev :=
  let r1 := sample_update cfg.sample_interval_s s tk
  let r2 := flood_submit cfg r1.1 tk
  (r2.1, r1.2 ++ r2.2)

/-- One loop-body iteration for an arbitrary mode: sampling happens first
(lines 180–201), then the mode dispatch; an unrecognized mode raises
`ValueError` (lines 243–244), with the iteration's earlier appends already
written. -/
def loop_step (cfg : RunConfig) (interval : ℚ) (s : LoopState) (tk : TickIn) :
    Except (List Ev × String) (LoopState × List Ev) :=
  let r1 := sample_update cfg.sample_interval_s s tk
  if cfg.mode = "fixed-rate" then
    let r2 := fixed_rate_submit cfg interval r1.1 tk
    Except.ok (r2.1, r1.2 ++ r2.2)
  else if cfg.mode = "flood" then
    let r2 := flood_submit cfg r1.1 tk
    Except.ok (r2.1, r1.2 ++ r2.2)
  else
    Except.error (r1.2, "Unknown mode: " ++ cfg.mode)

/-- The `while True` loop of `run_bench`: each iteration first re-reads the
clock and breaks once `now >= end`; otherwise it runs the loop body.  The
tick list is the successive clock readings with their environments; an
exhausted list also ends the loop. -/
def run_loop (cfg : RunConfig) (interval endt : ℚ) :
    LoopState → List TickIn → Except (List Ev × String) (LoopState × List Ev)
  | s, [] => Except.ok (s, [])
  | s, tk :: rest =>
    if endt ≤ tk.now then Except.ok (s, [])
    else
      match loop_step cfg interval s tk with
      | Except.error r => Except.error r
      | Except.ok (s1, evs1) =>
        match run_loop cfg interval endt s1 rest with
        | Except.error r2 => Except.error (evs1 ++ r2.1, r2.2)
        | Except.ok (s2, evs2) => Except.ok (s2, evs1 ++ evs2)

/-- External world for one whole run: the health-check reply, the two agents
fetches, the per-tick environments, and the final stats poll. -/
structure Env where
  health : HttpReply
  agents_start : Except String JVal
  ticks : List TickIn
  stats_final : Except String JVal
  agents_end : Except String JVal

/-- Loop-entry state: `submitted = submit_fail = 0`, counters unobserved,
`next_sample = next_tick = start`. -/
def init_state (start : ℚ) : LoopState :=
  { submitted := 0, submit_fail := 0, last_completed_total := none,
    baseline_completed_total := none, next_sample := start, next_tick := start }

/-- `run_bench(cfg)`: artifact-directory setup, config dump, best-effort
health check, the unguarded `agents_start` fetch, the control loop, the
guarded final stats poll, the unguarded `agents_end` fetch, and the summary
write.  The result is the trace of effects plus either the final
`(submitted, submit_fail)` counts or the exception escaping `run_bench`. -/
def run_bench (cfg : RunConfig) (env : Env) (start : ℚ) :
    List Ev × Except String (Nat × Nat) :=
  let pre : List Ev := [Ev.mkdir_runs, Ev.mkdir_out, Ev.write_config]
  let pre := pre ++ [match env.health with
    | HttpReply.resp st text _ => Ev.healthz_line st (str_take text 200)
    | HttpReply.exc e => Ev.healthz_error_line e]
  match env.agents_start with
  | Except.error e => (pre, Except.error e)
  | Except.ok doc =>
    let pre := pre ++ [Ev.write_agents_start doc]
    let endt := start + (cfg.duration_s : ℚ)
    match run_loop cfg (interval_of cfg) endt (init_state start) env.ticks with
    | Except.error r => (pre ++ r.1, Except.error r.2)
    | Except.ok (s, evs) =>
      let fin : List Ev := match env.stats_final with
        | Except.ok st => [Ev.final_stats_line st]
        | Except.error e => [Ev.final_stats_error_line e]
      match env.agents_end with
      | Except.error e => (pre ++ evs ++ fin, Except.error e)
      | Except.ok doc2 =>
        (pre ++ evs ++ fin ++ [Ev.write_agents_end doc2,
                               Ev.write_summary s.submitted s.submit_fail],
         Except.ok (s.submitted, s.submit_fail))

/-- Number of submission attempts recorded in a state. -/
def attempts (s : LoopState) : Nat := s.submitted + s.submit_fail

/-- The durations of the `time.sleep` calls in an effect trace, in order. -/
def sleeps (evs : List Ev) : List ℚ :=
  evs.filterMap (fun e => match e with | Ev.sleep q => some q | _ => none)

/-- Whether a trace contains a `summary.json` write. -/
def has_summary (evs : List Ev) : Bool :=
  evs.any (fun e => match e with | Ev.write_summary _ _ => true | _ => false)

/-- Whether a trace contains the run-directory creation. -/
def has_mkdir_out (evs : List Ev) : Bool :=
  evs.any (fun e => match e with | Ev.mkdir_out => true | _ => false)

/-- The completion-counter value a tick's stats reply would yield. -/
def tick_obs (tk : TickIn) : Option Int :=
  match tk.stats with
  | Except.ok st => extract_completed st
  | Except.error _ => none

/-- The loop-body iterations of a fixed-rate run, folded over the executed
ticks, accumulating states and effects. -/
def fixed_run (cfg : RunConfig) (interval : ℚ) :
    LoopState → List TickIn → LoopState × List Ev
  | s, [] => (s, [])
  | s, tk :: rest =>
    let r1 := fixed_step cfg interval s tk
    let r2 := fixed_run cfg interval r1.1 rest
    (r2.1, r1.2 ++ r2.2)

/-- The loop-body iterations of a flood run, folded over the executed
ticks, accumulating states and effects. -/
def flood_run (cfg : RunConfig) :
    LoopState → List TickIn → LoopState × List Ev
  | s, [] => (s, [])
  | s, tk :: rest =>
    let r1 := flood_step cfg s tk
    let r2 := flood_run cfg r1.1 rest
    (r2.1, r1.2 ++ r2.2)

/-- The payload recorded in a failure dict. -/
def err_payload : SubmitErr → JVal
  | SubmitErr.httpErr _ _ p => p
  | SubmitErr.excErr _ p => p

/-- A job endpoint that accepts every request body with HTTP 200. -/
def server200 : JVal → HttpReply := fun _ => HttpReply.resp 200 "ok" none

/-- A job endpoint that rejects every request body with HTTP 500. -/
def server500 : JVal → HttpReply := fun _ => HttpReply.resp 500 "err" none

lemma submit_job_requests_eq (server : JVal → HttpReply) (op text : String) :
    (submit_job server op text).1 =
      if status2xx (server (shape_a op text)) = true then [shape_a op text]
      else [shape_a op text, shape_b op text] := by
  cases hA : server (shape_a op text) with
  | resp stA tA jA =>
    by_cases h2A : 200 ≤ stA ∧ stA < 300
    · simp [submit_job, payload_shapes, try_shapes, hA, h2A, status2xx]
    · cases hB : server (shape_b op text) with
      | resp stB tB jB =>
        by_cases h2B : 200 ≤ stB ∧ stB < 300 <;>
          simp [submit_job, payload_shapes, try_shapes, hA, hB, h2A, h2B, status2xx]
      | exc eB =>
        simp [submit_job, payload_shapes, try_shapes, hA, hB, h2A, status2xx]
  | exc eA =>
    cases hB : server (shape_b op text) with
    | resp stB tB jB =>
      by_cases h2B : 200 ≤ stB ∧ stB < 300 <;>
        simp [submit_job, payload_shapes, try_shapes, hA, hB, h2B, status2xx]
    | exc eB =>
      simp [submit_job, payload_shapes, try_shapes, hA, hB, status2xx]

lemma submit_job_raise_eq (server : JVal → HttpReply) (op text : String) :
    isRaise (submit_job server op text).2 =
      (!status2xx (server (shape_a op text)) && !status2xx (server (shape_b op text))) := by
  cases hA : server (shape_a op text) with
  | resp stA tA jA =>
    by_cases h2A : 200 ≤ stA ∧ stA < 300
    · simp [submit_job, payload_shapes, try_shapes, hA, h2A, status2xx, isRaise]
    · cases hB : server (shape_b op text) with
      | resp stB tB jB =>
        by_cases h2B : 200 ≤ stB ∧ stB < 300 <;>
          simp [submit_job, payload_shapes, try_shapes, hA, hB, h2A, h2B, status2xx, isRaise]
      | exc eB =>
        simp [submit_job, payload_shapes, try_shapes, hA, hB, h2A, status2xx, isRaise]
  | exc eA =>
    cases hB : server (shape_b op text) with
    | resp stB tB jB =>
      by_cases h2B : 200 ≤ stB ∧ stB < 300 <;>
        simp [submit_job, payload_shapes, try_shapes, hA, hB, h2B, status2xx, isRaise]
    | exc eB =>
      simp [submit_job, payload_shapes, try_shapes, hA, hB, status2xx, isRaise]

lemma submit_job_ok_status (server : JVal → HttpReply) (op text : String) :
    ∀ r, (submit_job server op text).2 = Except.ok r → 200 ≤ r.status ∧ r.status < 300 := by
  intro r hr
  cases hA : server (shape_a op text) with
  | resp stA tA jA =>
    by_cases h2A : 200 ≤ stA ∧ stA < 300
    · simp [submit_job, payload_shapes, try_shapes, hA, h2A] at hr
      subst hr; exact h2A
    · cases hB : server (shape_b op text) with
      | resp stB tB jB =>
        by_cases h2B : 200 ≤ stB ∧ stB < 300
        · simp [submit_job, payload_shapes, try_shapes, hA, hB, h2A, h2B] at hr
          subst hr; exact h2B
        · simp [submit_job, payload_shapes, try_shapes, hA, hB, h2A, h2B] at hr
      | exc eB =>
        simp [submit_job, payload_shapes, try_shapes, hA, hB, h2A] at hr
  | exc eA =>
    cases hB : server (shape_b op text) with
    | resp stB tB jB =>
      by_cases h2B : 200 ≤ stB ∧ stB < 300
      · simp [submit_job, payload_shapes, try_shapes, hA, hB, h2B] at hr
        subst hr; exact h2B
      · simp [submit_job, payload_shapes, try_shapes, hA, hB, h2B] at hr
    | exc eB =>
      simp [submit_job, payload_shapes, try_shapes, hA, hB] at hr

lemma submit_job_err_payload (server : JVal → HttpReply) (op text : String) :
    ∀ e, (submit_job server op text).2 = Except.error e →
      ∃ err, e = some err ∧ err_payload err = shape_b op text := by
  intro e he
  cases hA : server (shape_a op text) with
  | resp stA tA jA =>
    by_cases h2A : 200 ≤ stA ∧ stA < 300
    · simp [submit_job, payload_shapes, try_shapes, hA, h2A] at he
    · cases hB : server (shape_b op text) with
      | resp stB tB jB =>
        by_cases h2B : 200 ≤ stB ∧ stB < 300
        · simp [submit_job, payload_shapes, try_shapes, hA, hB, h2A, h2B] at he
        · simp [submit_job, payload_shapes, try_shapes, hA, hB, h2A, h2B] at he
          exact ⟨_, he.symm, rfl⟩
      | exc eB =>
        simp [submit_job, payload_shapes, try_shapes, hA, hB, h2A] at he
        exact ⟨_, he.symm, rfl⟩
  | exc eA =>
    cases hB : server (shape_b op text) with
    | resp stB tB jB =>
      by_cases h2B : 200 ≤ stB ∧ stB < 300
      · simp [submit_job, payload_shapes, try_shapes, hA, hB, h2B] at he
      · simp [submit_job, payload_shapes, try_shapes, hA, hB, h2B] at he
        exact ⟨_, he.symm, rfl⟩
    | exc eB =>
      simp [submit_job, payload_shapes, try_shapes, hA, hB] at he
      exact ⟨_, he.symm, rfl⟩

/-- Fixed-rate configuration used by concrete runs: rate 10 tasks/s. -/
def cfgA : RunConfig :=
  { controller_url := "http://localhost:8080", duration_s := 300, mode := "fixed-rate",
    rate_tps := some 10, max_inflight := 20000, sample_interval_s := 1,
    op := "map_tokenize", payload_bytes := 256, seed := 1337 }

/-- A tick whose stats poll fails and whose job endpoint accepts. -/
def tk200 (t : ℚ) : TickIn :=
  { now := t, stats := Except.error "ConnectionError", server := server200, text := "x" }

/-- A tick whose stats poll fails and whose job endpoint rejects with 500. -/
def tk500 (t : ℚ) : TickIn :=
  { now := t, stats := Except.error "ConnectionError", server := server500, text := "x" }

/-- Claim C2, counterexample: when every payload shape fails (here a server
answering 500 to everything), `submit_job` does not return a failure record —
it raises a `RuntimeError` carrying the last error, so a language-level
failure does cross the function's boundary (its caller must catch it). -/
theorem c2_counterexample :
    isRaise (submit_job server500 "map_tokenize" "hello").2 = true
    ∧ (submit_job server500 "map_tokenize" "hello").2
        = Except.error (some (SubmitErr.httpErr 500 "err" (shape_b "map_tokenize" "hello"))) :=
  ⟨rfl, rfl⟩

/-- Claim C2 (amended): `submit_job` returns a record only on success (some
payload shape got a 2xx status, and the returned record's status is in
[200,300)); when every shape fails it raises, and the raised error carries
the last failure's status or exception text together with the payload sent
(the second shape).  The caller catches the raise and records `submit_fail`. -/
theorem c2_submit_job_success_or_raise (server : JVal → HttpReply) (op text : String) :
    isRaise (submit_job server op text).2
      = (!status2xx (server (shape_a op text)) && !status2xx (server (shape_b op text)))
    ∧ (∀ r, (submit_job server op text).2 = Except.ok r → 200 ≤ r.status ∧ r.status < 300)
    ∧ (∀ e, (submit_job server op text).2 = Except.error e →
        ∃ err, e = some err ∧ err_payload err = shape_b op text) :=
  ⟨submit_job_raise_eq server op text, submit_job_ok_status server op text,
   submit_job_err_payload server op text⟩

/-- Witness for `c2_submit_job_success_or_raise` at concrete servers. -/
theorem c2_submit_job_success_or_raise_witness :
    (200 ≤ 200 ∧ 200 < 300)
    ∧ (∃ err, (some (SubmitErr.httpErr 500 "err" (shape_b "map_tokenize" "hello"))
          = some err ∧ err_payload err = shape_b "map_tokenize" "hello")) := by
  constructor
  · exact (c2_submit_job_success_or_raise server200 "map_tokenize" "hello").2.1
      { status := 200, body := SubmitBody.text (str_take "ok" 500) } rfl
  · exact (c2_submit_job_success_or_raise server500 "map_tokenize" "hello").2.2
      (some (SubmitErr.httpErr 500 "err" (shape_b "map_tokenize" "hello"))) rfl

/-- Claim C3, counterexample: even on a fully accepting endpoint the single
body posted is shape A, `{"op": ..., "input": {"text": ...}}`, which is not
the specified `{"op": ..., "payload": {"text": ...}}` shape. -/
theorem c3_counterexample :
    (submit_job server200 "map_tokenize" "hello").1 = [shape_a "map_tokenize" "hello"]
    ∧ shape_a "map_tokenize" "hello" ≠ spec_shape "map_tokenize" "hello" := by
  refine ⟨rfl, ?_⟩
  simp [shape_a, spec_shape]

/-- Claim C3 (amended): each submission attempt posts one or two bodies —
first `{"op", "input": {"text"}}`, then on its failure `{"task": {...}}` —
stopping at the first 2xx; raising (total failure) is decided solely by the
HTTP statuses of the replies, never by parsing a response body. -/
theorem c3_submit_job_posted_shapes (server : JVal → HttpReply) (op text : String) :
    (submit_job server op text).1
      = (if status2xx (server (shape_a op text)) = true then [shape_a op text]
         else [shape_a op text, shape_b op text])
    ∧ isRaise (submit_job server op text).2
      = (!status2xx (server (shape_a op text)) && !status2xx (server (shape_b op text))) :=
  ⟨submit_job_requests_eq server op text, submit_job_raise_eq server op text⟩

/-- Claim C4, counterexample: a submission attempt whose first request gets a
non-success result issues a second HTTP request (the alternate shape) within
the same attempt, so "no second request is issued for the same attempt" fails. -/
theorem c4_counterexample :
    isRaise (submit_job server500 "map_tokenize" "hello").2 = true
    ∧ (submit_job server500 "map_tokenize" "hello").1
        = [shape_a "map_tokenize" "hello", shape_b "map_tokenize" "hello"] :=
  ⟨rfl, rfl⟩

/-- Claim C4 (amended): a failed attempt posts exactly the two payload shapes
(one in-attempt retry with the alternate shape); at the loop level the failed
attempt is counted once as `submit_fail` and logged once, and is not retried:
the fixed-rate branch appends one `submit_fail` line, and the flood branch
appends one `submit_fail` line followed by the 0.05 s failure backoff. -/
theorem c4_fail_accounting (cfg : RunConfig) (s : LoopState) (tk : TickIn)
    (hraise : isRaise (submit_job tk.server cfg.op tk.text).2 = true) :
    (submit_job tk.server cfg.op tk.text).1.length = 2
    ∧ (s.next_tick ≤ tk.now →
        (fixed_rate_submit cfg (interval_of cfg) s tk).1.submit_fail = s.submit_fail + 1
        ∧ (fixed_rate_submit cfg (interval_of cfg) s tk).2
            = [Ev.submit_fail_line tk.now s.submitted (s.submit_fail + 1)])
    ∧ (inflight_of s = none →
        (flood_submit cfg s tk).1.submit_fail = s.submit_fail + 1
        ∧ (flood_submit cfg s tk).2
            = [Ev.submit_fail_line tk.now s.submitted (s.submit_fail + 1), Ev.sleep (1/20)]) := by
  have hreq := submit_job_requests_eq tk.server cfg.op tk.text
  have hr := submit_job_raise_eq tk.server cfg.op tk.text
  rw [hraise] at hr
  have hA : status2xx (tk.server (shape_a cfg.op tk.text)) = false := by
    rcases Bool.eq_false_or_eq_true (status2xx (tk.server (shape_a cfg.op tk.text))) with h | h
    · rw [h] at hr; simp at hr
    · exact h
  obtain ⟨e, he⟩ : ∃ e, (submit_job tk.server cfg.op tk.text).2 = Except.error e := by
    cases h2 : (submit_job tk.server cfg.op tk.text).2 with
    | ok r => rw [h2] at hraise; simp [isRaise] at hraise
    | error e => exact ⟨e, rfl⟩
  refine ⟨?_, ?_, ?_⟩
  · rw [hreq, hA]; simp
  · intro hdue
    constructor <;> simp [fixed_rate_submit, hdue, he]
  · intro hinf
    constructor <;> simp [flood_submit, hinf, he]

/-- Witness for `c4_fail_accounting` at a concrete failing endpoint. -/
theorem c4_fail_accounting_witness :
    (submit_job (tk500 0).server cfgA.op (tk500 0).text).1.length = 2
    ∧ (fixed_rate_submit cfgA (interval_of cfgA) (init_state 0) (tk500 0)).1.submit_fail = 1
    ∧ (flood_submit cfgA (init_state 0) (tk500 0)).1.submit_fail = 1 := by
  have h := c4_fail_accounting cfgA (init_state 0) (tk500 0) (by rfl)
  exact ⟨h.1, (h.2.1 (by norm_num [init_state, tk500])).1, (h.2.2 (by rfl)).1⟩

lemma sample_update_no_sleeps (si : ℚ) (s : LoopState) (tk : TickIn) :
    sleeps (sample_update si s tk).2 = [] := by
  unfold sample_update
  split
  · cases hst : tk.stats with
    | ok st => cases h : extract_completed st <;> simp [sleeps]
    | error e => simp [sleeps]
  · simp [sleeps]

lemma sleep_mem_iff (q : ℚ) (evs : List Ev) : Ev.sleep q ∈ evs ↔ q ∈ sleeps evs := by
  unfold sleeps
  rw [List.mem_filterMap]
  constructor
  · intro h; exact ⟨_, h, rfl⟩
  · rintro ⟨e, he, hf⟩
    cases e <;> simp at hf
    rw [← hf]; exact he

lemma sample_update_sched (si : ℚ) (s : LoopState) (tk : TickIn) :
    (sample_update si s tk).1.submitted = s.submitted
    ∧ (sample_update si s tk).1.submit_fail = s.submit_fail
    ∧ (sample_update si s tk).1.next_tick = s.next_tick := by
  unfold sample_update
  split
  · cases hst : tk.stats with
    | ok st => cases h : extract_completed st <;> simp [h]
    | error e => simp
  · simp

lemma sample_update_frozen (si : ℚ) (s : LoopState) (tk : TickIn) (c : Int)
    (hb : s.baseline_completed_total = some c) (hl : s.last_completed_total = some c)
    (hobs : tick_obs tk = none ∨ tick_obs tk = some c) :
    (sample_update si s tk).1.baseline_completed_total = some c
    ∧ (sample_update si s tk).1.last_completed_total = some c := by
  unfold sample_update
  split
  · cases hst : tk.stats with
    | ok st =>
      have hex : extract_completed st = none ∨ extract_completed st = some c := by
        simpa [tick_obs, hst] using hobs
      rcases hex with h | h <;> simp [h, hb, hl]
    | error e => simp [hb, hl]
  · simp [hb, hl]

lemma sample_update_unobserved (si : ℚ) (s : LoopState) (tk : TickIn)
    (hb : s.baseline_completed_total = none) (hl : s.last_completed_total = none)
    (hobs : tick_obs tk = none) :
    (sample_update si s tk).1.baseline_completed_total = none
    ∧ (sample_update si s tk).1.last_completed_total = none := by
  unfold sample_update
  split
  · cases hst : tk.stats with
    | ok st =>
      have hex : extract_completed st = none := by simpa [tick_obs, hst] using hobs
      simp [hex, hb, hl]
    | error e => simp [hb, hl]
  · simp [hb, hl]

lemma flood_submit_counters (cfg : RunConfig) (s : LoopState) (tk : TickIn) :
    (flood_submit cfg s tk).1.baseline_completed_total = s.baseline_completed_total
    ∧ (flood_submit cfg s tk).1.last_completed_total = s.last_completed_total
    ∧ (flood_submit cfg s tk).1.next_sample = s.next_sample := by
  cases hbm : (match inflight_of s with
               | none => true
               | some i => decide (i < cfg.max_inflight)) with
  | true =>
    cases h2 : (submit_job tk.server cfg.op tk.text).2 with
    | ok r => simp [flood_submit, hbm, h2]
    | error e => simp [flood_submit, hbm, h2]
  | false => simp [flood_submit, hbm]

lemma flood_submit_below (cfg : RunConfig) (s : LoopState) (tk : TickIn)
    (hbelow : inflight_of s = none ∨ ∃ i, inflight_of s = some i ∧ i < cfg.max_inflight) :
    attempts (flood_submit cfg s tk).1 = attempts s + 1
    ∧ (isRaise (submit_job tk.server cfg.op tk.text).2 = true →
        sleeps (flood_submit cfg s tk).2 = [1/20])
    ∧ (isRaise (submit_job tk.server cfg.op tk.text).2 = false →
        sleeps (flood_submit cfg s tk).2 = []) := by
  have hb : (match inflight_of s with
             | none => true
             | some i => decide (i < cfg.max_inflight)) = true := by
    rcases hbelow with h | ⟨i, hi, hlt⟩
    · rw [h]
    · rw [hi]; simpa using hlt
  cases h2 : (submit_job tk.server cfg.op tk.text).2 with
  | ok r =>
    refine ⟨?_, ?_, ?_⟩
    · simp only [flood_submit, hb, h2]
      simp [attempts]
      omega
    · intro hcontra; simp [isRaise] at hcontra
    · intro _
      simp only [flood_submit, hb, h2]
      simp only [if_true]
      split <;> simp [sleeps]
  | error e =>
    refine ⟨?_, ?_, ?_⟩
    · simp only [flood_submit, hb, h2]
      simp [attempts]
      omega
    · intro _
      simp only [flood_submit, hb, h2]
      simp [sleeps]
    · intro hcontra; simp [isRaise] at hcontra

lemma flood_submit_at_cap (cfg : RunConfig) (s : LoopState) (tk : TickIn)
    (i : Int) (hi : inflight_of s = some i) (hge : cfg.max_inflight ≤ i) :
    (flood_submit cfg s tk).1 = s
    ∧ (flood_submit cfg s tk).2 = [Ev.sleep (1/500)] := by
  have hb : (match inflight_of s with
             | none => true
             | some j => decide (j < cfg.max_inflight)) = false := by
    rw [hi]; simpa using hge
  constructor <;> simp [flood_submit, hb]

/-- Flood configuration used by concrete runs: `max_inflight = 3`. -/
def cfgF : RunConfig :=
  { controller_url := "http://localhost:8080", duration_s := 120, mode := "flood",
    rate_tps := none, max_inflight := 3, sample_interval_s := 1,
    op := "map_tokenize", payload_bytes := 256, seed := 1337 }

/-- A state whose inflight estimate sits exactly at the `cfgF` ceiling. -/
def s_cap : LoopState :=
  { submitted := 3, submit_fail := 0, last_completed_total := some 5,
    baseline_completed_total := some 5, next_sample := 0, next_tick := 0 }

/-- Claim C5: on a flood-mode tick, if the inflight estimate is unknown or
strictly below `max_inflight`, exactly one submission is attempted (with the
0.05 s backoff after a failure and no sleep after a success); otherwise no
submission happens and the 0.002 s backpressure pause is slept; the failure
backoff is strictly longer than the capacity pause. -/
theorem c5_flood_decision (cfg : RunConfig) (s : LoopState) (tk : TickIn) :
    ((inflight_of s = none ∨ ∃ i, inflight_of s = some i ∧ i < cfg.max_inflight) →
      attempts (flood_submit cfg s tk).1 = attempts s + 1
      ∧ (isRaise (submit_job tk.server cfg.op tk.text).2 = true →
          sleeps (flood_submit cfg s tk).2 = [1/20])
      ∧ (isRaise (submit_job tk.server cfg.op tk.text).2 = false →
          sleeps (flood_submit cfg s tk).2 = []))
    ∧ (∀ i, inflight_of s = some i → cfg.max_inflight ≤ i →
        attempts (flood_submit cfg s tk).1 = attempts s
        ∧ sleeps (flood_submit cfg s tk).2 = [1/500])
    ∧ (1/500 : ℚ) < 1/20 := by
  refine ⟨fun hbelow => flood_submit_below cfg s tk hbelow, ?_, by norm_num⟩
  intro i hi hge
  have h := flood_submit_at_cap cfg s tk i hi hge
  rw [h.1, h.2]
  exact ⟨rfl, by simp [sleeps]⟩

/-- Witness for `c5_flood_decision`: below the ceiling one submission is
attempted; at the ceiling nothing is attempted and the pause is 0.002 s. -/
theorem c5_flood_decision_witness :
    attempts (flood_submit cfgF (init_state 0) (tk200 0)).1 = attempts (init_state 0) + 1
    ∧ attempts (flood_submit cfgF s_cap (tk200 0)).1 = attempts s_cap
    ∧ sleeps (flood_submit cfgF s_cap (tk200 0)).2 = [1/500] := by
  refine ⟨((c5_flood_decision cfgF (init_state 0) (tk200 0)).1 (Or.inl rfl)).1, ?_, ?_⟩
  · exact ((c5_flood_decision cfgF s_cap (tk200 0)).2.1 3 rfl (by norm_num [cfgF])).1
  · exact ((c5_flood_decision cfgF s_cap (tk200 0)).2.1 3 rfl (by norm_num [cfgF])).2

lemma flood_submit_submitted_or (cfg : RunConfig) (s : LoopState) (tk : TickIn) :
    (flood_submit cfg s tk).1.submitted = s.submitted
    ∨ (flood_submit cfg s tk).1.submitted = s.submitted + 1 := by
  cases hbm : (match inflight_of s with
               | none => true
               | some i => decide (i < cfg.max_inflight)) with
  | true =>
    cases h2 : (submit_job tk.server cfg.op tk.text).2 with
    | ok r => right; simp [flood_submit, hbm, h2]
    | error e => left; simp [flood_submit, hbm, h2]
  | false => left; simp [flood_submit, hbm]

lemma flood_step_frozen (cfg : RunConfig) (c : Int) (s : LoopState) (tk : TickIn)
    (hb : s.baseline_completed_total = some c) (hl : s.last_completed_total = some c)
    (hsub : (s.submitted : Int) ≤ cfg.max_inflight)
    (hobs : tick_obs tk = none ∨ tick_obs tk = some c) :
    (flood_step cfg s tk).1.baseline_completed_total = some c
    ∧ (flood_step cfg s tk).1.last_completed_total = some c
    ∧ ((flood_step cfg s tk).1.submitted : Int) ≤ cfg.max_inflight
    ∧ (cfg.max_inflight ≤ (s.submitted : Int) →
        attempts (flood_step cfg s tk).1 = attempts s
        ∧ (flood_step cfg s tk).1.submitted = s.submitted
        ∧ sleeps (flood_step cfg s tk).2 = [1/500]) := by
  obtain ⟨hb1, hl1⟩ := sample_update_frozen cfg.sample_interval_s s tk c hb hl hobs
  obtain ⟨hsub1, hfail1, _⟩ := sample_update_sched cfg.sample_interval_s s tk
  have hinf : inflight_of (sample_update cfg.sample_interval_s s tk).1
      = some (s.submitted : Int) := by
    simp [inflight_of, hb1, hl1, hsub1]
  have hstep1 : (flood_step cfg s tk).1
      = (flood_submit cfg (sample_update cfg.sample_interval_s s tk).1 tk).1 := rfl
  by_cases hlt : (s.submitted : Int) < cfg.max_inflight
  · obtain ⟨hcb, hcl, _⟩ :=
      flood_submit_counters cfg (sample_update cfg.sample_interval_s s tk).1 tk
    refine ⟨?_, ?_, ?_, ?_⟩
    · rw [hstep1, hcb, hb1]
    · rw [hstep1, hcl, hl1]
    · rcases flood_submit_submitted_or cfg (sample_update cfg.sample_interval_s s tk).1 tk
        with h | h
      · rw [hstep1, h, hsub1]; exact hsub
      · rw [hstep1, h, hsub1]; push_cast; omega
    · intro hge; exact absurd hlt (not_lt.mpr hge)
  · have hge : cfg.max_inflight ≤ (s.submitted : Int) := not_lt.mp hlt
    have hc := flood_submit_at_cap cfg (sample_update cfg.sample_interval_s s tk).1 tk
      (s.submitted : Int) hinf hge
    refine ⟨?_, ?_, ?_, ?_⟩
    · rw [hstep1, hc.1, hb1]
    · rw [hstep1, hc.1, hl1]
    · rw [hstep1, hc.1, hsub1]; exact hsub
    · intro _
      refine ⟨?_, ?_, ?_⟩
      · rw [hstep1, hc.1]; simp [attempts, hsub1, hfail1]
      · rw [hstep1, hc.1, hsub1]
      · show sleeps ((sample_update cfg.sample_interval_s s tk).2
            ++ (flood_submit cfg (sample_update cfg.sample_interval_s s tk).1 tk).2) = [1/500]
        rw [hc.2]
        simp [sleeps, List.filterMap_append]
        have := sample_update_no_sleeps cfg.sample_interval_s s tk
        simpa [sleeps] using this

lemma flood_run_cap_invariant (cfg : RunConfig) (c : Int) (ticks : List TickIn) :
    ∀ (s : LoopState),
      s.baseline_completed_total = some c → s.last_completed_total = some c →
      (s.submitted : Int) ≤ cfg.max_inflight →
      (∀ tk ∈ ticks, tick_obs tk = none ∨ tick_obs tk = some c) →
      (flood_run cfg s ticks).1.baseline_completed_total = some c
      ∧ (flood_run cfg s ticks).1.last_completed_total = some c
      ∧ ((flood_run cfg s ticks).1.submitted : Int) ≤ cfg.max_inflight := by
  induction ticks with
  | nil => intro s hb hl hsub _; exact ⟨hb, hl, hsub⟩
  | cons tk rest ih =>
    intro s hb hl hsub hobs
    obtain ⟨hb1, hl1, hsub1, _⟩ :=
      flood_step_frozen cfg c s tk hb hl hsub (hobs tk (List.mem_cons_self tk rest))
    have hrest : ∀ t ∈ rest, tick_obs t = none ∨ tick_obs t = some c :=
      fun t ht => hobs t (List.mem_cons_of_mem tk ht)
    have := ih (flood_step cfg s tk).1 hb1 hl1 hsub1 hrest
    simpa [flood_run] using this

/-- Claim C6: in flood mode with `max_inflight = 3`, once the completion
counter has been observed (value `c`) and every later observation still reads
`c` (frozen counter), the run makes at most 3 successful submissions; and
from any loop state in which 3 have already succeeded, every subsequent tick
performs no submission and sleeps the 0.002 s backpressure pause. -/
theorem c6_flood_frozen_counter_throttles (cfg : RunConfig) (c : Int)
    (ticks : List TickIn) (s0 : LoopState)
    (hmax : cfg.max_inflight = 3)
    (hb : s0.baseline_completed_total = some c)
    (hl : s0.last_completed_total = some c)
    (hsub : s0.submitted = 0)
    (hfrozen : ∀ tk ∈ ticks, tick_obs tk = none ∨ tick_obs tk = some c) :
    (flood_run cfg s0 ticks).1.submitted ≤ 3
    ∧ (∀ pre tk post, ticks = pre ++ tk :: post →
        3 ≤ (flood_run cfg s0 pre).1.submitted →
        attempts (flood_step cfg (flood_run cfg s0 pre).1 tk).1
          = attempts (flood_run cfg s0 pre).1
        ∧ sleeps (flood_step cfg (flood_run cfg s0 pre).1 tk).2 = [1/500]) := by
  have hsub0 : (s0.submitted : Int) ≤ cfg.max_inflight := by
    rw [hsub, hmax]; norm_num
  constructor
  · have h := flood_run_cap_invariant cfg c ticks s0 hb hl hsub0 hfrozen
    have h3 := h.2.2
    rw [hmax] at h3
    exact_mod_cast h3
  · intro pre tk post hsplit h3
    have hpre : ∀ t ∈ pre, tick_obs t = none ∨ tick_obs t = some c := by
      intro t ht
      exact hfrozen t (by rw [hsplit]; exact List.mem_append_left _ ht)
    have hmid := flood_run_cap_invariant cfg c pre s0 hb hl hsub0 hpre
    have htk : tick_obs tk = none ∨ tick_obs tk = some c := by
      apply hfrozen
      rw [hsplit]
      exact List.mem_append_right _ (List.mem_cons_self tk post)
    have hstep := flood_step_frozen cfg c (flood_run cfg s0 pre).1 tk
      hmid.1 hmid.2.1 hmid.2.2 htk
    have hge : cfg.max_inflight ≤ ((flood_run cfg s0 pre).1.submitted : Int) := by
      rw [hmax]; exact_mod_cast h3
    obtain ⟨ha, _, hs⟩ := hstep.2.2.2 hge
    exact ⟨ha, hs⟩

/-- A loop state that has already observed the (frozen) counter value 5. -/
def s_frozen : LoopState :=
  { submitted := 0, submit_fail := 0, last_completed_total := some 5,
    baseline_completed_total := some 5, next_sample := 0, next_tick := 0 }

/-- Witness for `c6_flood_frozen_counter_throttles` on a concrete 5-tick run
whose stats polls all fail (so the counter stays frozen at 5). -/
theorem c6_flood_frozen_counter_throttles_witness :
    (flood_run cfgF s_frozen [tk200 0, tk200 1, tk200 2, tk200 3, tk200 4]).1.submitted ≤ 3
    ∧ sleeps (flood_step cfgF
        (flood_run cfgF s_frozen [tk200 0, tk200 1, tk200 2]).1 (tk200 3)).2 = [1/500] := by
  have hfrozen : ∀ tk ∈ [tk200 0, tk200 1, tk200 2, tk200 3, tk200 4],
      tick_obs tk = none ∨ tick_obs tk = some 5 := by
    intro tk htk
    fin_cases htk <;> exact Or.inl rfl
  have h := c6_flood_frozen_counter_throttles cfgF 5
    [tk200 0, tk200 1, tk200 2, tk200 3, tk200 4] s_frozen rfl rfl rfl rfl hfrozen
  refine ⟨h.1, ?_⟩
  have h3 : 3 ≤ (flood_run cfgF s_frozen [tk200 0, tk200 1, tk200 2]).1.submitted := by
    norm_num [flood_run, flood_step, sample_update, flood_submit, inflight_of, submit_job,
      try_shapes, payload_shapes, shape_a, shape_b, server200, tk200, s_frozen, cfgF,
      extract_completed, tick_obs]
  exact (h.2 [tk200 0, tk200 1, tk200 2] (tk200 3) [tk200 4] rfl h3).2

lemma sleeps_append (a b : List Ev) : sleeps (a ++ b) = sleeps a ++ sleeps b := by
  simp [sleeps, List.filterMap_append]

lemma flood_step_unknown (cfg : RunConfig) (s : LoopState) (tk : TickIn)
    (hb : s.baseline_completed_total = none) (hl : s.last_completed_total = none)
    (hobs : tick_obs tk = none) :
    (flood_step cfg s tk).1.baseline_completed_total = none
    ∧ (flood_step cfg s tk).1.last_completed_total = none
    ∧ attempts (flood_step cfg s tk).1 = attempts s + 1
    ∧ ∀ q ∈ sleeps (flood_step cfg s tk).2, q = 1/20 := by
  obtain ⟨hb1, hl1⟩ := sample_update_unobserved cfg.sample_interval_s s tk hb hl hobs
  obtain ⟨hsub1, hfail1, _⟩ := sample_update_sched cfg.sample_interval_s s tk
  have hinf : inflight_of (sample_update cfg.sample_interval_s s tk).1 = none := by
    simp [inflight_of, hb1]
  have hstep1 : (flood_step cfg s tk).1
      = (flood_submit cfg (sample_update cfg.sample_interval_s s tk).1 tk).1 := rfl
  obtain ⟨hcb, hcl, _⟩ :=
    flood_submit_counters cfg (sample_update cfg.sample_interval_s s tk).1 tk
  have hbelow :=
    flood_submit_below cfg (sample_update cfg.sample_interval_s s tk).1 tk (Or.inl hinf)
  refine ⟨?_, ?_, ?_, ?_⟩
  · rw [hstep1, hcb, hb1]
  · rw [hstep1, hcl, hl1]
  · rw [hstep1, hbelow.1]; simp [attempts, hsub1, hfail1]
  · intro q hq
    have hsplit : sleeps (flood_step cfg s tk).2
        = sleeps (sample_update cfg.sample_interval_s s tk).2
          ++ sleeps (flood_submit cfg (sample_update cfg.sample_interval_s s tk).1 tk).2 :=
      sleeps_append _ _
    rw [hsplit, sample_update_no_sleeps] at hq
    simp only [List.nil_append] at hq
    cases hR : isRaise (submit_job tk.server cfg.op tk.text).2 with
    | true => rw [hbelow.2.1 hR] at hq; simpa using hq
    | false => rw [hbelow.2.2 hR] at hq; simp at hq

lemma flood_run_unknown (cfg : RunConfig) (ticks : List TickIn) :
    ∀ s : LoopState,
      s.baseline_completed_total = none → s.last_completed_total = none →
      (∀ tk ∈ ticks, tick_obs tk = none) →
      (flood_run cfg s ticks).1.baseline_completed_total = none
      ∧ (flood_run cfg s ticks).1.last_completed_total = none
      ∧ attempts (flood_run cfg s ticks).1 = attempts s + ticks.length
      ∧ ∀ q ∈ sleeps (flood_run cfg s ticks).2, q = 1/20 := by
  induction ticks with
  | nil =>
    intro s hb hl _
    exact ⟨hb, hl, by simp [flood_run], by simp [flood_run, sleeps]⟩
  | cons tk rest ih =>
    intro s hb hl hobs
    obtain ⟨hb1, hl1, ha1, hs1⟩ :=
      flood_step_unknown cfg s tk hb hl (hobs tk (List.mem_cons_self tk rest))
    obtain ⟨hb2, hl2, ha2, hs2⟩ := ih (flood_step cfg s tk).1 hb1 hl1
      (fun t ht => hobs t (List.mem_cons_of_mem tk ht))
    refine ⟨?_, ?_, ?_, ?_⟩
    · simpa [flood_run] using hb2
    · simpa [flood_run] using hl2
    · simp only [flood_run]
      rw [ha2, ha1, List.length_cons]
      omega
    · intro q hq
      simp only [flood_run] at hq
      rw [sleeps_append] at hq
      rcases List.mem_append.mp hq with h | h
      · exact hs1 q h
      · exact hs2 q h

/-- Claim C10: in flood mode, if no polled stats snapshot ever yields an
integer under a recognized completion-counter key, the inflight estimate
stays unknown for the whole run (both counters remain unobserved), a
submission is attempted on every executed tick, and the 0.002 s
backpressure pause is never slept. -/
theorem c10_no_counter_never_throttles (cfg : RunConfig) (start : ℚ) (ticks : List TickIn)
    (hobs : ∀ tk ∈ ticks, tick_obs tk = none) :
    (flood_run cfg (init_state start) ticks).1.baseline_completed_total = none
    ∧ (flood_run cfg (init_state start) ticks).1.last_completed_total = none
    ∧ attempts (flood_run cfg (init_state start) ticks).1 = ticks.length
    ∧ Ev.sleep (1/500) ∉ (flood_run cfg (init_state start) ticks).2 := by
  obtain ⟨h1, h2, h3, h4⟩ := flood_run_unknown cfg ticks (init_state start) rfl rfl hobs
  refine ⟨h1, h2, by simpa [attempts, init_state] using h3, ?_⟩
  intro hmem
  have h520 := h4 (1/500) ((sleep_mem_iff _ _).mp hmem)
  norm_num at h520

/-- Witness for `c10_no_counter_never_throttles` on a 3-tick run (one tick's
submission fails) whose stats polls all fail. -/
theorem c10_no_counter_never_throttles_witness :
    attempts (flood_run cfgF (init_state 0) [tk200 0, tk500 1, tk200 2]).1 = 3
    ∧ Ev.sleep (1/500) ∉ (flood_run cfgF (init_state 0) [tk200 0, tk500 1, tk200 2]).2 := by
  have hobs : ∀ tk ∈ [tk200 0, tk500 1, tk200 2], tick_obs tk = none := by
    intro tk htk; fin_cases htk <;> rfl
  have h := c10_no_counter_never_throttles cfgF 0 [tk200 0, tk500 1, tk200 2] hobs
  exact ⟨by rw [h.2.2.1]; rfl, h.2.2.2⟩

lemma fixed_tick_bound (cfg : RunConfig) (interval : ℚ) (s : LoopState) (tk : TickIn) :
    (attempts (fixed_rate_submit cfg interval s tk).1 = attempts s
      ∧ (fixed_rate_submit cfg interval s tk).1.next_tick = s.next_tick)
    ∨ (s.next_tick ≤ tk.now
      ∧ attempts (fixed_rate_submit cfg interval s tk).1 = attempts s + 1
      ∧ s.next_tick + interval ≤ (fixed_rate_submit cfg interval s tk).1.next_tick) := by
  by_cases hdue : s.next_tick ≤ tk.now
  · right
    refine ⟨hdue, ?_, ?_⟩
    · cases h2 : (submit_job tk.server cfg.op tk.text).2 with
      | ok r =>
        simp [fixed_rate_submit, hdue, h2, attempts, Nat.add_assoc, Nat.add_comm,
          Nat.add_left_comm]
      | error e =>
        simp [fixed_rate_submit, hdue, h2, attempts, Nat.add_assoc, Nat.add_comm,
          Nat.add_left_comm]
    · cases h2 : (submit_job tk.server cfg.op tk.text).2 with
      | ok r =>
        simp only [fixed_rate_submit, if_pos hdue, h2]
        split <;> [linarith; simp]
      | error e =>
        simp only [fixed_rate_submit, if_pos hdue, h2]
        split <;> [linarith; simp]
  · left
    constructor <;> simp [fixed_rate_submit, hdue]

lemma fixed_step_bound (cfg : RunConfig) (interval : ℚ) (s : LoopState) (tk : TickIn) :
    (attempts (fixed_step cfg interval s tk).1 = attempts s
      ∧ (fixed_step cfg interval s tk).1.next_tick = s.next_tick)
    ∨ (s.next_tick ≤ tk.now
      ∧ attempts (fixed_step cfg interval s tk).1 = attempts s + 1
      ∧ s.next_tick + interval ≤ (fixed_step cfg interval s tk).1.next_tick) := by
  have hs := sample_update_sched cfg.sample_interval_s s tk
  have hstep : (fixed_step cfg interval s tk).1
      = (fixed_rate_submit cfg interval (sample_update cfg.sample_interval_s s tk).1 tk).1 := rfl
  have hatt : attempts (sample_update cfg.sample_interval_s s tk).1 = attempts s := by
    simp [attempts, hs.1, hs.2.1]
  rcases fixed_tick_bound cfg interval (sample_update cfg.sample_interval_s s tk).1 tk
    with ⟨h1, h2⟩ | ⟨hdue, h1, h2⟩
  · left
    rw [hstep, h1, h2, hatt, hs.2.2]
    exact ⟨rfl, rfl⟩
  · right
    rw [hs.2.2] at hdue
    rw [hatt] at h1
    rw [hs.2.2] at h2
    rw [hstep]
    exact ⟨hdue, h1, h2⟩

lemma fixed_run_cons (cfg : RunConfig) (interval : ℚ) (s : LoopState) (tk : TickIn)
    (rest : List TickIn) :
    (fixed_run cfg interval s (tk :: rest)).1
      = (fixed_run cfg interval (fixed_step cfg interval s tk).1 rest).1 := rfl

lemma fixed_run_bound (cfg : RunConfig) (interval start T : ℚ) (ticks : List TickIn) :
    ∀ s : LoopState,
      0 < interval →
      start + (attempts s : ℚ) * interval ≤ s.next_tick →
      (∀ tk ∈ ticks, tk.now ≤ T) →
      (attempts (fixed_run cfg interval s ticks).1 : ℚ) * interval
        ≤ max ((attempts s : ℚ) * interval) (T - start + interval) := by
  induction ticks with
  | nil =>
    intro s _ _ _
    simp only [fixed_run]
    exact le_max_left _ _
  | cons tk rest ih =>
    intro s hi hinv hT
    have hTtk : tk.now ≤ T := hT tk (List.mem_cons_self tk rest)
    have hTrest : ∀ t ∈ rest, t.now ≤ T := fun t ht => hT t (List.mem_cons_of_mem tk ht)
    rcases fixed_step_bound cfg interval s tk with ⟨h1, h2⟩ | ⟨hdue, h1, h2⟩
    · have hinv1 : start + (attempts (fixed_step cfg interval s tk).1 : ℚ) * interval
          ≤ (fixed_step cfg interval s tk).1.next_tick := by
        rw [h1, h2]; exact hinv
      have hrec := ih (fixed_step cfg interval s tk).1 hi hinv1 hTrest
      rw [fixed_run_cons]
      rw [h1] at hrec
      exact hrec
    · have hattle : (attempts s : ℚ) * interval ≤ tk.now - start := by linarith
      have hcastone : ((attempts s + 1 : ℕ) : ℚ) * interval
          = (attempts s : ℚ) * interval + interval := by push_cast; ring
      have hinv1 : start + (attempts (fixed_step cfg interval s tk).1 : ℚ) * interval
          ≤ (fixed_step cfg interval s tk).1.next_tick := by
        rw [h1, hcastone]; linarith
      have hbound1 : (attempts (fixed_step cfg interval s tk).1 : ℚ) * interval
          ≤ T - start + interval := by
        rw [h1, hcastone]; linarith
      have hrec := ih (fixed_step cfg interval s tk).1 hi hinv1 hTrest
      rw [fixed_run_cons]
      refine le_trans hrec (max_le ?_ ?_)
      · exact le_trans hbound1 (le_max_right _ _)
      · exact le_max_right _ _

/-- Claim C1 (amended): in fixed-rate mode with a positive rate `R`, the
number of submission attempts over any executed tick sequence whose clock
readings stay in `[start, T]` never exceeds `R * (T - start) + 1`, hence
never exceeds `⌈R * elapsed⌉ + B` for any burst bound `B ≥ 1`.  (The code has
no burst cap: at most one submission happens per tick; and no convergence to
`R * elapsed` holds, since credit more than 2 s in arrears is discarded.) -/
theorem c1_fixed_rate_bound (cfg : RunConfig) (R : Int) (start T : ℚ)
    (ticks : List TickIn)
    (hmode : cfg.mode = "fixed-rate") (hR : cfg.rate_tps = some R) (hpos : 0 < R)
    (hT : ∀ tk ∈ ticks, tk.now ≤ T) (hsT : start ≤ T) :
    (attempts (fixed_run cfg (interval_of cfg) (init_state start) ticks).1 : ℚ)
      ≤ (R : ℚ) * (T - start) + 1
    ∧ ∀ B : Int, 1 ≤ B →
        (attempts (fixed_run cfg (interval_of cfg) (init_state start) ticks).1 : Int)
          ≤ ⌈(R : ℚ) * (T - start)⌉ + B := by
  have hRQ : (0 : ℚ) < (R : ℚ) := by exact_mod_cast hpos
  have hint : interval_of cfg = 1 / (R : ℚ) := by
    simp [interval_of, hR, hmode, hpos, hpos.ne']
  have hipos : 0 < interval_of cfg := by
    rw [hint]; positivity
  have hinv0 : start + (attempts (init_state start) : ℚ) * interval_of cfg
      ≤ (init_state start).next_tick := by
    simp [init_state, attempts]
  have hb := fixed_run_bound cfg (interval_of cfg) start T ticks (init_state start)
    hipos hinv0 hT
  have hmax : max ((attempts (init_state start) : ℚ) * interval_of cfg)
      (T - start + interval_of cfg) = T - start + interval_of cfg := by
    apply max_eq_right
    simp [init_state, attempts]
    linarith
  rw [hmax] at hb
  set A := attempts (fixed_run cfg (interval_of cfg) (init_state start) ticks).1 with hAdef
  rw [hint] at hb
  have hmain : (A : ℚ) ≤ (R : ℚ) * (T - start) + 1 := by
    have hmul := mul_le_mul_of_nonneg_right hb (le_of_lt hRQ)
    calc (A : ℚ) = (A : ℚ) * (1 / (R : ℚ)) * (R : ℚ) := by field_simp
      _ ≤ (T - start + 1 / (R : ℚ)) * (R : ℚ) := hmul
      _ = (R : ℚ) * (T - start) + 1 := by field_simp; ring
  refine ⟨hmain, ?_⟩
  intro B hB
  have hceil : ((A : Int) : ℚ) - 1 ≤ ((⌈(R : ℚ) * (T - start)⌉ : Int) : ℚ) := by
    have hle := Int.le_ceil ((R : ℚ) * (T - start))
    push_cast
    push_cast at hmain
    linarith
  have hzz : (A : Int) - 1 ≤ ⌈(R : ℚ) * (T - start)⌉ := by exact_mod_cast hceil
  omega

/-- Witness for `c1_fixed_rate_bound` on a 3-tick run at rate 10. -/
theorem c1_fixed_rate_bound_witness :
    (attempts (fixed_run cfgA (interval_of cfgA) (init_state 0)
        [tk200 0, tk200 (1/10), tk200 (1/4)]).1 : ℚ) ≤ (10 : ℚ) * ((1/4) - 0) + 1
    ∧ (attempts (fixed_run cfgA (interval_of cfgA) (init_state 0)
        [tk200 0, tk200 (1/10), tk200 (1/4)]).1 : Int) ≤ ⌈(10 : ℚ) * ((1/4) - 0)⌉ + 1 := by
  have h := c1_fixed_rate_bound cfgA 10 0 (1/4) [tk200 0, tk200 (1/10), tk200 (1/4)]
    rfl rfl (by norm_num)
    (by intro tk htk; fin_cases htk <;> norm_num [tk200]) (by norm_num)
  exact ⟨h.1, h.2 1 le_rfl⟩

/-- Fixed-rate configuration, rate 10, with an hour-long sample interval so
only the first tick polls stats. -/
def cfg1 : RunConfig :=
  { controller_url := "http://localhost:8080", duration_s := 300, mode := "fixed-rate",
    rate_tps := some 10, max_inflight := 20000, sample_interval_s := 3600,
    op := "map_tokenize", payload_bytes := 256, seed := 1337 }

/-- A run that stalls for 10 s after the first tick (e.g. a slow submission),
then ticks every 0.1 s up to t = 11. -/
def trace1 : List TickIn :=
  [tk200 0, tk200 10, tk200 (101/10), tk200 (102/10), tk200 (103/10), tk200 (104/10),
   tk200 (105/10), tk200 (106/10), tk200 (107/10), tk200 (108/10), tk200 (109/10), tk200 11]

/-- Claim C1, counterexample: at rate `R = 10` with burst tolerance `B = 5`,
after the 10 s stall the catch-up jump (`next_tick = now`) discards the
pending credit, so at elapsed time 11 only 12 submissions have been issued
while `R * elapsed - B = 105`: the cumulative count does not stay within one
burst-cap of `R * elapsed`, refuting the convergence half of the claim. -/
theorem c1_counterexample :
    attempts (fixed_run cfg1 (interval_of cfg1) (init_state 0) trace1).1 = 12
    ∧ (trace1.map TickIn.now).getLast? = some 11
    ∧ ¬ ((10 : ℚ) * (11 - 0) - 5 ≤ 12) := by
  refine ⟨?_, rfl, by norm_num⟩
  norm_num [fixed_run, fixed_step, sample_update, fixed_rate_submit, submit_job, try_shapes,
    payload_shapes, shape_a, shape_b, server200, tk200, init_state, attempts, cfg1, trace1,
    interval_of]

/-- Fixed-rate configuration with rate 0, the spec's "do nothing" case. -/
def cfg9 : RunConfig :=
  { controller_url := "http://localhost:8080", duration_s := 300, mode := "fixed-rate",
    rate_tps := some 0, max_inflight := 20000, sample_interval_s := 1,
    op := "map_tokenize", payload_bytes := 256, seed := 1337 }

/-- Claim C9: with `rate_tps = 0` in fixed-rate mode the code computes
`interval = 0`, so `now >= next_tick` holds on every tick and a submission is
attempted on every single tick — the opposite of the claimed perpetual idle.
Here 3 executed ticks yield 3 submission attempts. -/
theorem c9_rate_zero_submits_every_tick :
    interval_of cfg9 = 0
    ∧ attempts (fixed_run cfg9 (interval_of cfg9) (init_state 0)
        [tk200 0, tk200 1, tk200 2]).1 = 3 := by
  constructor
  · rfl
  · norm_num [fixed_run, fixed_step, sample_update, fixed_rate_submit, submit_job, try_shapes,
      payload_shapes, shape_a, shape_b, server200, tk200, init_state, attempts, cfg9,
      interval_of]

/-- Whether a trace contains the `config.json` write. -/
def has_write_config (evs : List Ev) : Bool :=
  evs.any (fun e => match e with | Ev.write_config => true | _ => false)

lemma loop_step_ok (cfg : RunConfig) (interval : ℚ) (s : LoopState) (tk : TickIn)
    (hmode : cfg.mode = "fixed-rate" ∨ cfg.mode = "flood") :
    ∃ p, loop_step cfg interval s tk = Except.ok p := by
  rcases hmode with h | h
  · refine ⟨((fixed_rate_submit cfg interval (sample_update cfg.sample_interval_s s tk).1 tk).1,
      (sample_update cfg.sample_interval_s s tk).2
        ++ (fixed_rate_submit cfg interval (sample_update cfg.sample_interval_s s tk).1 tk).2),
      ?_⟩
    simp [loop_step, h]
  · refine ⟨((flood_submit cfg (sample_update cfg.sample_interval_s s tk).1 tk).1,
      (sample_update cfg.sample_interval_s s tk).2
        ++ (flood_submit cfg (sample_update cfg.sample_interval_s s tk).1 tk).2), ?_⟩
    simp [loop_step, h]

lemma run_loop_ok (cfg : RunConfig) (interval endt : ℚ)
    (hmode : cfg.mode = "fixed-rate" ∨ cfg.mode = "flood") :
    ∀ (ticks : List TickIn) (s : LoopState),
      ∃ p, run_loop cfg interval endt s ticks = Except.ok p := by
  intro ticks
  induction ticks with
  | nil => intro s; exact ⟨_, rfl⟩
  | cons tk rest ih =>
    intro s
    by_cases hend : endt ≤ tk.now
    · exact ⟨(s, []), by simp [run_loop, hend]⟩
    · obtain ⟨p, hp⟩ := loop_step_ok cfg interval s tk hmode
      obtain ⟨s1, evs1⟩ := p
      obtain ⟨q, hq⟩ := ih s1
      obtain ⟨s2, evs2⟩ := q
      exact ⟨(s2, evs1 ++ evs2), by simp [run_loop, hend, hp, hq]⟩

/-- Claim C7 (amended): with a valid mode, as long as the two unguarded
agents fetches succeed, the run completes and writes `summary.json` no
matter how many health checks, telemetry polls, or submissions fail; but a
failure of either agents fetch escapes `run_bench` (see the counterexample). -/
theorem c7_run_completes (cfg : RunConfig) (env : Env) (start : ℚ)
    (hmode : cfg.mode = "fixed-rate" ∨ cfg.mode = "flood")
    (hs : isRaise env.agents_start = false)
    (he : isRaise env.agents_end = false) :
    isRaise (run_bench cfg env start).2 = false
    ∧ has_summary (run_bench cfg env start).1 = true := by
  obtain ⟨doc, hdoc⟩ : ∃ doc, env.agents_start = Except.ok doc := by
    cases h : env.agents_start with
    | ok d => exact ⟨d, rfl⟩
    | error e => rw [h] at hs; simp [isRaise] at hs
  obtain ⟨doc2, hdoc2⟩ : ∃ d, env.agents_end = Except.ok d := by
    cases h : env.agents_end with
    | ok d => exact ⟨d, rfl⟩
    | error e => rw [h] at he; simp [isRaise] at he
  obtain ⟨p, hloop⟩ := run_loop_ok cfg (interval_of cfg) (start + (cfg.duration_s : ℚ))
    hmode env.ticks (init_state start)
  obtain ⟨sfin, evs⟩ := p
  cases hfin : env.stats_final with
  | ok stf =>
    constructor <;>
      simp [run_bench, hdoc, hdoc2, hloop, hfin, isRaise, has_summary, List.any_append]
  | error ef =>
    constructor <;>
      simp [run_bench, hdoc, hdoc2, hloop, hfin, isRaise, has_summary, List.any_append]

/-- A fully healthy environment with a single executed tick. -/
def envOk : Env :=
  { health := HttpReply.resp 200 "ok" none, agents_start := Except.ok JVal.null,
    ticks := [tk200 0], stats_final := Except.ok JVal.null,
    agents_end := Except.ok JVal.null }

/-- Witness for `c7_run_completes` on a concrete flood run. -/
theorem c7_run_completes_witness :
    isRaise (run_bench cfgF envOk 0).2 = false
    ∧ has_summary (run_bench cfgF envOk 0).1 = true :=
  c7_run_completes cfgF envOk 0 (Or.inr rfl) rfl rfl

/-- An environment whose final agents fetch fails. -/
def envEndFail : Env :=
  { health := HttpReply.resp 200 "ok" none, agents_start := Except.ok JVal.null,
    ticks := [], stats_final := Except.ok JVal.null,
    agents_end := Except.error "requests.exceptions.ConnectionError" }

/-- Claim C7, counterexample: the `agents_end` fetch (line 253) is not
guarded, so its failure escapes `run_bench` after the loop finished and
`summary.json` is never written. -/
theorem c7_counterexample :
    (run_bench cfgF envEndFail 0).2 = Except.error "requests.exceptions.ConnectionError"
    ∧ has_summary (run_bench cfgF envEndFail 0).1 = false := by
  constructor <;> rfl

/-- A configuration whose mode is neither `fixed-rate` nor `flood`. -/
def cfg8 : RunConfig :=
  { controller_url := "http://localhost:8080", duration_s := 300, mode := "warp",
    rate_tps := none, max_inflight := 20000, sample_interval_s := 1,
    op := "map_tokenize", payload_bytes := 256, seed := 1337 }

/-- An otherwise healthy environment with one executed tick. -/
def env8 : Env :=
  { health := HttpReply.resp 200 "ok" none, agents_start := Except.ok JVal.null,
    ticks := [tk200 0], stats_final := Except.ok JVal.null,
    agents_end := Except.ok JVal.null }

lemma invalid_mode_error (cfg : RunConfig) (env : Env) (start : ℚ)
    (doc : JVal) (tk : TickIn) (rest : List TickIn)
    (hmode1 : cfg.mode ≠ "fixed-rate") (hmode2 : cfg.mode ≠ "flood")
    (hdoc : env.agents_start = Except.ok doc)
    (hticks : env.ticks = tk :: rest)
    (hnow : tk.now < start + (cfg.duration_s : ℚ)) :
    (run_bench cfg env start).2 = Except.error ("Unknown mode: " ++ cfg.mode)
    ∧ has_mkdir_out (run_bench cfg env start).1 = true
    ∧ has_write_config (run_bench cfg env start).1 = true := by
  have hstep : loop_step cfg (interval_of cfg) (init_state start) tk
      = Except.error ((sample_update cfg.sample_interval_s (init_state start) tk).2,
                      "Unknown mode: " ++ cfg.mode) := by
    simp [loop_step, hmode1, hmode2]
  have hnotend : ¬ (start + (cfg.duration_s : ℚ) ≤ tk.now) := not_le.mpr hnow
  refine ⟨?_, ?_, ?_⟩ <;>
    simp [run_bench, hdoc, hticks, run_loop, hnotend, hstep, has_mkdir_out,
      has_write_config, List.any_append]

/-- Claim C8, counterexample: with an invalid mode the `ValueError` is only
raised inside the first loop iteration (lines 243-244), after the run
directory was created and `config.json` was written — not before any
artifact directory is created. -/
theorem c8_counterexample :
    (run_bench cfg8 env8 0).2 = Except.error ("Unknown mode: " ++ cfg8.mode)
    ∧ has_mkdir_out (run_bench cfg8 env8 0).1 = true
    ∧ has_write_config (run_bench cfg8 env8 0).1 = true :=
  invalid_mode_error cfg8 env8 0 JVal.null (tk200 0) []
    (by simp [cfg8]) (by simp [cfg8]) rfl rfl (by norm_num [cfg8, tk200])

/-- Claim C8 (amended): an invalid mode is fatal, but only at the first
executed loop iteration: the run raises `ValueError` then, with the artifact
directory already created and `config.json` (plus the preflight artifacts)
already written. -/
theorem c8_invalid_mode_fails_inside_loop (cfg : RunConfig) (env : Env) (start : ℚ)
    (doc : JVal) (tk : TickIn) (rest : List TickIn)
    (hmode1 : cfg.mode ≠ "fixed-rate") (hmode2 : cfg.mode ≠ "flood")
    (hdoc : env.agents_start = Except.ok doc)
    (hticks : env.ticks = tk :: rest)
    (hnow : tk.now < start + (cfg.duration_s : ℚ)) :
    (run_bench cfg env start).2 = Except.error ("Unknown mode: " ++ cfg.mode)
    ∧ has_mkdir_out (run_bench cfg env start).1 = true
    ∧ has_write_config (run_bench cfg env start).1 = true :=
  invalid_mode_error cfg env start doc tk rest hmode1 hmode2 hdoc hticks hnow

/-- Witness for `c8_invalid_mode_fails_inside_loop` at the concrete invalid
mode `warp` with a healthy environment and one executed tick. -/
theorem c8_invalid_mode_fails_inside_loop_witness :
    (run_bench cfg8 env8 0).2 = Except.error ("Unknown mode: " ++ cfg8.mode)
    ∧ has_mkdir_out (run_bench cfg8 env8 0).1 = true := by
  have h := c8_invalid_mode_fails_inside_loop cfg8 env8 0 JVal.null (tk200 0) []
    (by simp [cfg8]) (by simp [cfg8]) rfl rfl (by norm_num [cfg8, tk200])
  exact ⟨h.1, h.2.1⟩
